import Mathlib

/-!
Verification of the retention-advancement (candidate/confirm) protocol and the
callback-dispatch layer of `src/backend/replication/logical/logical.c`.

The slot state and the three protocol operations
(`LogicalIncreaseXminForSlot`, `LogicalIncreaseRestartDecodingForSlot`,
`LogicalConfirmReceivedLocation`) are embedded as pure state transformers;
LSNs are naturals with `0` playing the role of `InvalidXLogRecPtr`, and
transaction ids are naturals below `2^32` compared in the modular
(wraparound-aware) order.
-/

namespace PGLogical

/-- Modulus of the 32-bit TransactionId space (`2^32`). -/
def xidModulus : Nat := 4294967296

/-- Half of the TransactionId space (`2^31`), the int32 sign boundary used by
the modular comparisons. -/
def xidHalfModulus : Nat := 2147483648

/-- Embeds `FirstNormalTransactionId` from the transaction-id headers: ids below this
are special (invalid/bootstrap/frozen) and compare by plain order. -/
def FirstNormalTransactionId : Nat := 3

/-- Embeds `TransactionIdIsValid`: the invalid transaction id is `0`. -/
def TransactionIdIsValid (x : Nat) : Bool := x ≠ 0

/-- Embeds `TransactionIdIsNormal`: a normal (wraparound-comparable) transaction id. -/
def TransactionIdIsNormal (x : Nat) : Bool := FirstNormalTransactionId ≤ x

/-- Modelled from the spec: TransactionId comparisons "must handle wraparound
(modular ordering), not raw integer ordering" (the comparison helpers live in
the transaction-manager module, outside these sources).  `id1` precedes `id2`
iff the signed 32-bit difference `id1 - id2` is negative; ids below the first
normal id compare by plain order. -/
def TransactionIdPrecedes (id1 id2 : Nat) : Bool :=
  if ¬TransactionIdIsNormal id1 ∨ ¬TransactionIdIsNormal id2 then
    decide (id1 < id2)
  else
    decide (xidHalfModulus ≤ (xidModulus + id1 - id2) % xidModulus)

/-- Modelled from the spec (same provenance as `TransactionIdPrecedes`):
`id1` precedes or equals `id2` iff the signed 32-bit difference is `≤ 0`. -/
def TransactionIdPrecedesOrEquals (id1 id2 : Nat) : Bool :=
  if ¬TransactionIdIsNormal id1 ∨ ¬TransactionIdIsNormal id2 then
    decide (id1 ≤ id2)
  else
    decide (id1 = id2 ∨ xidHalfModulus ≤ (xidModulus + id1 - id2) % xidModulus)

/-- Modelled from the spec (same provenance as `TransactionIdPrecedes`):
`id1` follows `id2` iff the signed 32-bit difference is `> 0`. -/
def TransactionIdFollows (id1 id2 : Nat) : Bool :=
  if ¬TransactionIdIsNormal id1 ∨ ¬TransactionIdIsNormal id2 then
    decide (id2 < id1)
  else
    decide (1 ≤ (xidModulus + id1 - id2) % xidModulus ∧
            (xidModulus + id1 - id2) % xidModulus < xidHalfModulus)

/-- The durably persisted part of a replication slot
(`ReplicationSlotPersistentData`), restricted to the fields this module
touches.  `database = 0` (InvalidOid) marks a physical slot
(`SlotIsPhysical`). -/
structure ReplicationSlotPersistentData where
  database : Nat
  restart_lsn : Nat
  confirmed_flush : Nat
  catalog_xmin : Nat
deriving DecidableEq, Repr

/-- In-memory replication slot state (`ReplicationSlot`), restricted to the
fields read and written by `logical.c`: the persistent part plus the enforced
`effective_catalog_xmin` and the two candidate tracks. -/
structure ReplicationSlot where
  data : ReplicationSlotPersistentData
  effective_catalog_xmin : Nat
  candidate_catalog_xmin : Nat
  candidate_xmin_lsn : Nat
  candidate_restart_valid : Nat
  candidate_restart_lsn : Nat
deriving DecidableEq, Repr

/-- Embeds `SlotIsPhysical`: a slot not associated with a database. -/
def SlotIsPhysical (s : ReplicationSlot) : Bool := s.data.database = 0

/-- Embeds `LogicalConfirmReceivedLocation(lsn)` as a state transformer on the slot.
Mirrors the source exactly: an unlocked pre-check for any pending candidate;
`confirmed_flush` is assigned unconditionally; the xmin candidate is adopted
into `data.catalog_xmin` when its trigger lsn is reached and it is valid and
different from the current value (the two nested `if`s of the source are
flattened into one conjunction); the restart candidate is adopted when its
trigger lsn is reached; after the (modelled elsewhere) persist,
`effective_catalog_xmin` is updated only when the xmin candidate was
adopted. -/
def LogicalConfirmReceivedLocation (s : ReplicationSlot) (lsn : Nat) :
    ReplicationSlot :=
  if s.candidate_xmin_lsn ≠ 0 ∨ s.candidate_restart_valid ≠ 0 then
    let s1 := { s with data.confirmed_flush := lsn }
    let s2 :=
      if s1.candidate_xmin_lsn ≠ 0 ∧ s1.candidate_xmin_lsn ≤ lsn ∧
         s1.candidate_catalog_xmin ≠ 0 ∧
         s1.data.catalog_xmin ≠ s1.candidate_catalog_xmin then
        { s1 with data.catalog_xmin := s1.candidate_catalog_xmin,
                  candidate_catalog_xmin := 0, candidate_xmin_lsn := 0 }
      else s1
    let s3 :=
      if s2.candidate_restart_valid ≠ 0 ∧ s2.candidate_restart_valid ≤ lsn then
        { s2 with data.restart_lsn := s2.candidate_restart_lsn,
                  candidate_restart_lsn := 0, candidate_restart_valid := 0 }
      else s2
    if s1.candidate_xmin_lsn ≠ 0 ∧ s1.candidate_xmin_lsn ≤ lsn ∧
       s1.candidate_catalog_xmin ≠ 0 ∧
       s1.data.catalog_xmin ≠ s1.candidate_catalog_xmin then
      { s3 with effective_catalog_xmin := s3.data.catalog_xmin }
    else s3
  else
    { s with data.confirmed_flush := lsn }

/-- Embeds `LogicalIncreaseXminForSlot(current_lsn, xmin)`: propose `xmin` as the next
catalog xmin, to take effect once the consumer has confirmed past
`current_lsn`.  Mirrors the source's `if / else if / else if` chain; in the
already-confirmed branch `updated_xmin` is set and
`LogicalConfirmReceivedLocation(confirmed_flush)` is invoked after the lock is
released. -/
def LogicalIncreaseXminForSlot (s : ReplicationSlot) (current_lsn xmin : Nat) :
    ReplicationSlot :=
  if TransactionIdPrecedesOrEquals xmin s.data.catalog_xmin then
    s
  else if current_lsn ≤ s.data.confirmed_flush then
    let s' := { s with candidate_catalog_xmin := xmin,
                       candidate_xmin_lsn := current_lsn }
    LogicalConfirmReceivedLocation s' s'.data.confirmed_flush
  else if s.candidate_xmin_lsn = 0 then
    { s with candidate_catalog_xmin := xmin,
             candidate_xmin_lsn := current_lsn }
  else
    s

/-- Embeds `LogicalIncreaseRestartDecodingForSlot(current_lsn, restart_lsn)`: propose
`restart_lsn` as the next restart position.  Mirrors the source exactly,
including the fact that the third branch is a plain `if` (not `else if`): it
runs whenever no candidate is pending after the first two branches, even when
the first (don't-overwrite) branch applied. -/
def LogicalIncreaseRestartDecodingForSlot (s : ReplicationSlot)
    (current_lsn restart_lsn : Nat) : ReplicationSlot :=
  let updated_lsn :=
    ¬restart_lsn ≤ s.data.restart_lsn ∧ current_lsn ≤ s.data.confirmed_flush
  let s1 :=
    if restart_lsn ≤ s.data.restart_lsn then s
    else if current_lsn ≤ s.data.confirmed_flush then
      { s with candidate_restart_valid := current_lsn,
               candidate_restart_lsn := restart_lsn }
    else s
  let s2 :=
    if s1.candidate_restart_valid = 0 then
      { s1 with candidate_restart_valid := current_lsn,
                candidate_restart_lsn := restart_lsn }
    else s1
  if updated_lsn then
    LogicalConfirmReceivedLocation s2 s2.data.confirmed_flush
  else s2

/-- The condition under which `LogicalConfirmReceivedLocation` adopts the
pending catalog-xmin candidate (the two nested `if`s of the source combined):
a candidate is pending, its trigger lsn has been confirmed, it is a valid
transaction id, and it differs from the current `catalog_xmin`. -/
def xminAdopt (s : ReplicationSlot) (lsn : Nat) : Prop :=
  s.candidate_xmin_lsn ≠ 0 ∧ s.candidate_xmin_lsn ≤ lsn ∧
  s.candidate_catalog_xmin ≠ 0 ∧ s.data.catalog_xmin ≠ s.candidate_catalog_xmin

instance (s : ReplicationSlot) (lsn : Nat) : Decidable (xminAdopt s lsn) := by
  unfold xminAdopt; infer_instance

/-- The condition under which `LogicalConfirmReceivedLocation` adopts the
pending restart-lsn candidate: a candidate is pending and its trigger lsn has
been confirmed. -/
def restartAdopt (s : ReplicationSlot) (lsn : Nat) : Prop :=
  s.candidate_restart_valid ≠ 0 ∧ s.candidate_restart_valid ≤ lsn

instance (s : ReplicationSlot) (lsn : Nat) : Decidable (restartAdopt s lsn) := by
  unfold restartAdopt; infer_instance

/-- A concrete slot used in counterexamples: no pending candidates,
`confirmed_flush = 10`. -/
def slotConfirmedTen : ReplicationSlot :=
  { data := { database := 1, restart_lsn := 1, confirmed_flush := 10,
              catalog_xmin := 4 },
    effective_catalog_xmin := 4, candidate_catalog_xmin := 0,
    candidate_xmin_lsn := 0, candidate_restart_valid := 0,
    candidate_restart_lsn := 0 }

/-- A concrete slot used in counterexamples: `restart_lsn = 5`, no pending
candidates, `confirmed_flush = 2`. -/
def slotRestartFive : ReplicationSlot :=
  { data := { database := 1, restart_lsn := 5, confirmed_flush := 2,
              catalog_xmin := 4 },
    effective_catalog_xmin := 4, candidate_catalog_xmin := 0,
    candidate_xmin_lsn := 0, candidate_restart_valid := 0,
    candidate_restart_lsn := 0 }

/-- A concrete slot used in counterexamples: a catalog-xmin candidate
`(value 15, trigger 100)` is pending while `confirmed_flush = 50`. -/
def slotPendingXmin : ReplicationSlot :=
  { data := { database := 1, restart_lsn := 1, confirmed_flush := 50,
              catalog_xmin := 10 },
    effective_catalog_xmin := 10, candidate_catalog_xmin := 15,
    candidate_xmin_lsn := 100, candidate_restart_valid := 0,
    candidate_restart_lsn := 0 }

/-- A concrete slot used in witnesses: candidates pending on both tracks
(xmin trigger 100, restart trigger 90) while `confirmed_flush = 50`. -/
def slotPendingBoth : ReplicationSlot :=
  { data := { database := 1, restart_lsn := 1, confirmed_flush := 50,
              catalog_xmin := 10 },
    effective_catalog_xmin := 10, candidate_catalog_xmin := 15,
    candidate_xmin_lsn := 100, candidate_restart_valid := 90,
    candidate_restart_lsn := 30 }

/-- One call into the retention-advancement protocol: a consumer confirmation
or a proposal on one of the two candidate tracks. -/
inductive SlotOp where
  | confirm (lsn : Nat)
  | proposeXmin (current_lsn xmin : Nat)
  | proposeRestart (current_lsn restart_lsn : Nat)
deriving DecidableEq, Repr

/-- Apply one protocol call to the slot. -/
def applyOp (s : ReplicationSlot) : SlotOp → ReplicationSlot
  | .confirm lsn => LogicalConfirmReceivedLocation s lsn
  | .proposeXmin cur x => LogicalIncreaseXminForSlot s cur x
  | .proposeRestart cur r => LogicalIncreaseRestartDecodingForSlot s cur r

/-- The slot states observed after each call of a sequence. -/
def slotStates (s : ReplicationSlot) : List SlotOp → List ReplicationSlot
  | [] => []
  | op :: ops => applyOp s op :: slotStates (applyOp s op) ops

/-- The argument positions of the confirmation calls in a sequence, in order. -/
def confirmPositions : List SlotOp → List Nat
  | [] => []
  | .confirm lsn :: ops => lsn :: confirmPositions ops
  | .proposeXmin _ _ :: ops => confirmPositions ops
  | .proposeRestart _ _ :: ops => confirmPositions ops

/-- Reachable-state invariant of a slot in this sequential model: transaction
ids are 32-bit, the enforced `effective_catalog_xmin` equals the durable
`catalog_xmin` (as established at slot creation, where
`CreateInitDecodingContext` assigns both from
`GetOldestSafeDecodingTransactionId`, and maintained by every adoption), and a
pending xmin candidate strictly advances the current `catalog_xmin` (the
guard of `LogicalIncreaseXminForSlot`). -/
def WellFormedSlot (s : ReplicationSlot) : Prop :=
  s.data.catalog_xmin < xidModulus ∧
  s.candidate_catalog_xmin < xidModulus ∧
  s.effective_catalog_xmin = s.data.catalog_xmin ∧
  (s.candidate_xmin_lsn ≠ 0 →
    TransactionIdPrecedesOrEquals s.candidate_catalog_xmin s.data.catalog_xmin
      = false)

/-- Argument contract of one protocol call: proposed transaction ids are
32-bit, and the positions asserted non-invalid by the source
(`Assert(lsn != InvalidXLogRecPtr)` in `LogicalConfirmReceivedLocation`,
`Assert(restart_lsn != InvalidXLogRecPtr)` and
`Assert(current_lsn != InvalidXLogRecPtr)` in
`LogicalIncreaseRestartDecodingForSlot`) are non-zero. -/
def OpWF : SlotOp → Prop
  | .confirm lsn => lsn ≠ 0
  | .proposeXmin _ x => x < xidModulus
  | .proposeRestart cur r => cur ≠ 0 ∧ r ≠ 0

instance (op : SlotOp) : Decidable (OpWF op) := by
  cases op <;> simp only [OpWF] <;> infer_instance

instance (s : ReplicationSlot) : Decidable (WellFormedSlot s) := by
  unfold WellFormedSlot; infer_instance

/-- The call sequence of Scenario A, extended with a restart proposal: propose
catalog xmin 50 with trigger 150, acknowledge 120, acknowledge 150, propose
restart lsn 120 with trigger 160. -/
def opsScenarioA : List SlotOp :=
  [SlotOp.proposeXmin 150 50, SlotOp.confirm 120, SlotOp.confirm 150,
   SlotOp.proposeRestart 160 120]

/-- Memory-plus-disk state used for the crash-ordering analysis of
`LogicalConfirmReceivedLocation`: the in-memory slot and the durably persisted
copy of its persistent part. -/
structure MState where
  mem : ReplicationSlot
  disk : ReplicationSlotPersistentData
deriving DecidableEq, Repr

/-- Observable steps of `LogicalConfirmReceivedLocation`: spinlock
acquire/release, the field assignments, the persist
(`ReplicationSlotMarkDirty` + `ReplicationSlotSave`), and the trailing
recomputation calls. -/
inductive SlotEvent where
  | lock | unlock | setConfirmed | adoptXmin | adoptRestart
  | markDirty | save | setEffective | recomputeXmin | recomputeLSN
deriving DecidableEq, Repr

/-- Event-level execution of `LogicalConfirmReceivedLocation`: the list of
steps the source performs, in source order, each paired with the memory/disk
state after that step.  `markDirty`/`save` model `ReplicationSlotMarkDirty` /
`ReplicationSlotSave` (slot-storage layer, outside these sources); `save`
copies the in-memory persistent part to disk.  The two trailing `lock` /
`setEffective` / `unlock` steps are the re-acquired spinlock around the
`effective_catalog_xmin` update.  The source evaluates the candidate checks on
the state after `confirmed_flush` is set and (for the restart track) after
the xmin adoption; neither assignment touches the fields those checks read,
so the conditions are stated here on the entry state. -/
def confirmSteps (st : MState) (lsn : Nat) : List (SlotEvent × MState) :=
  if st.mem.candidate_xmin_lsn ≠ 0 ∨ st.mem.candidate_restart_valid ≠ 0 then
    let s1 : MState := { st with mem.data.confirmed_flush := lsn }
    let ux := st.mem.candidate_xmin_lsn ≠ 0 ∧ st.mem.candidate_xmin_lsn ≤ lsn ∧
              st.mem.candidate_catalog_xmin ≠ 0 ∧
              st.mem.data.catalog_xmin ≠ st.mem.candidate_catalog_xmin
    let s2 := if ux then
        { s1 with mem.data.catalog_xmin := s1.mem.candidate_catalog_xmin,
                  mem.candidate_catalog_xmin := 0, mem.candidate_xmin_lsn := 0 }
      else s1
    let ur := st.mem.candidate_restart_valid ≠ 0 ∧
              st.mem.candidate_restart_valid ≤ lsn
    let s3 := if ur then
        { s2 with mem.data.restart_lsn := s2.mem.candidate_restart_lsn,
                  mem.candidate_restart_lsn := 0, mem.candidate_restart_valid := 0 }
      else s2
    let s4 := { s3 with disk := s3.mem.data }
    let s5 := { s4 with mem.effective_catalog_xmin := s4.mem.data.catalog_xmin }
    [(.lock, st), (.setConfirmed, s1)]
      ++ (if ux then [(.adoptXmin, s2)] else [])
      ++ (if ur then [(.adoptRestart, s3)] else [])
      ++ [(.unlock, s3)]
      ++ (if ux ∨ ur then [(.markDirty, s3), (.save, s4)] else [])
      ++ (if ux then
            [(.lock, s4), (.setEffective, s5), (.unlock, s5),
             (.recomputeXmin, s5), (.recomputeLSN, s5)]
          else [])
  else
    [(.lock, st), (.setConfirmed, { st with mem.data.confirmed_flush := lsn }),
     (.unlock, { st with mem.data.confirmed_flush := lsn })]

/-- Spinlock depth right before the `i`-th event of a trace: acquisitions
minus releases among the earlier events.  An event "happens outside the
spinlock" iff its depth is `0`. -/
def lockDepthBefore (evs : List SlotEvent) (i : Nat) : Int :=
  ((evs.take i).count .lock : Int) - ((evs.take i).count .unlock : Int)

/-- State recorded immediately after the first occurrence of event `e`. -/
def stateAfterEvent (tr : List (SlotEvent × MState)) (e : SlotEvent) :
    Option MState :=
  (tr.find? (fun p => decide (p.1 = e))).map Prod.snd

/-- Final state of a trace (the input state if the trace is empty). -/
def finalState (tr : List (SlotEvent × MState)) (st : MState) : MState :=
  ((tr.map Prod.snd).getLast?).getD st

/-- Modelled from the spec: "on restart, effective is reloaded from the
durable value" — the slot-restore routine of the storage layer (outside these
sources) rebuilds the in-memory slot from its persisted part, setting
`effective_catalog_xmin` from the persisted `catalog_xmin` and leaving no
pending candidates. -/
def restoreSlotFromDisk (d : ReplicationSlotPersistentData) : ReplicationSlot :=
  { data := d, effective_catalog_xmin := d.catalog_xmin,
    candidate_catalog_xmin := 0, candidate_xmin_lsn := 0,
    candidate_restart_valid := 0, candidate_restart_lsn := 0 }

/-- Memory/disk state used in the crash-ordering counterexample and witness:
the slot with a pending xmin candidate `(15, trigger 100)` together with a
disk copy of its persistent part. -/
def mstatePendingXmin : MState :=
  { mem := slotPendingXmin, disk := slotPendingXmin.data }

/-- Embeds `EnsureActiveLogicalSlotValid`: the active slot is unusable when the
installation-wide `oldestCatalogXmin` is invalid or has advanced past the
slot's `catalog_xmin`. -/
def EnsureActiveLogicalSlotValid (s : ReplicationSlot)
    (oldestCatalogXmin : Nat) : Except String Unit :=
  if ¬TransactionIdIsValid oldestCatalogXmin ∨
     TransactionIdFollows oldestCatalogXmin s.data.catalog_xmin then
    .error "replication slot requires catalogs removed by master"
  else .ok ()

/-- Embeds `CreateDecodingContext(start_lsn, ...)` reduced to its user-facing
validation and start-position resolution: the value returned is the resolved
start position handed to `StartupDecodingContext`.  The machinery assembled
afterwards (plugin load, WAL reader, reorder buffer, snapshot builder) is
external and irrelevant to the start-position claims. -/
def CreateDecodingContext (s : ReplicationSlot)
    (myDatabaseId oldestCatalogXmin start_lsn : Nat) : Except String Nat :=
  if SlotIsPhysical s then
    .error "cannot use physical replication slot for logical decoding"
  else if s.data.database ≠ myDatabaseId then
    .error "replication slot was not created in this database"
  else
    let resolved := if start_lsn = 0 then s.data.confirmed_flush
      else if start_lsn < s.data.confirmed_flush then s.data.confirmed_flush
      else start_lsn
    match EnsureActiveLogicalSlotValid s oldestCatalogXmin with
    | .error e => .error e
    | .ok _ => .ok resolved

/-- An error-context frame (`LogicalErrorCallbackState` as linked through
`ErrorContextCallback`): the callback name and the report location pushed on
`error_context_stack` around a plugin callback invocation. -/
structure ErrorContextFrame where
  callback_name : String
  report_location : Nat
deriving DecidableEq, Repr

/-- The write-window fields of the decoding context that each wrapper sets
before invoking the plugin callback. -/
structure OutputState where
  accept_writes : Bool
  write_xid : Nat
  write_location : Nat
deriving DecidableEq, Repr

/-- Outcome-level model of a plugin callback: it observes the output state and
the error-context stack as set up by its wrapper, and either returns normally
or raises an error, which unwinds out of the wrapper through the error
machinery. -/
abbrev PluginCallback := OutputState → List ErrorContextFrame → Except Nat Unit

/-- Result of dispatching one callback: on normal return, the output state and
error-context stack as the wrapper leaves them; on a raised error, the error
with the output state and error-context stack at the moment control unwinds
out of the wrapper. -/
abbrev DispatchResult :=
  Except (Nat × OutputState × List ErrorContextFrame)
    (OutputState × List ErrorContextFrame)

/-- Shared shape of the callback wrappers in the source: push the frame on the
error-context stack, set the output state, invoke the callback, pop the frame.
The pop statement is reached only when the callback returns normally; a raised
error unwinds past it, leaving the frame on the stack for the outer error
machinery. -/
def dispatchWrapper (frame : ErrorContextFrame) (outState : OutputState)
    (stack : List ErrorContextFrame) (cb : PluginCallback) : DispatchResult :=
  match cb outState (frame :: stack) with
  | .ok _ => .ok (outState, stack)
  | .error e => .error (e, outState, frame :: stack)

/-- Embeds `startup_cb_wrapper`: no write window (`accept_writes := false`), no
associated LSN. -/
def startup_cb_wrapper (ctx : OutputState) (stack : List ErrorContextFrame)
    (cb : PluginCallback) : DispatchResult :=
  dispatchWrapper ⟨"startup", 0⟩ { ctx with accept_writes := false } stack cb

/-- Embeds `shutdown_cb_wrapper`: no write window, no associated LSN. -/
def shutdown_cb_wrapper (ctx : OutputState) (stack : List ErrorContextFrame)
    (cb : PluginCallback) : DispatchResult :=
  dispatchWrapper ⟨"shutdown", 0⟩ { ctx with accept_writes := false } stack cb

/-- Embeds `begin_cb_wrapper`: opens a write window at the transaction's first
LSN. -/
def begin_cb_wrapper (ctx : OutputState) (stack : List ErrorContextFrame)
    (xid first_lsn : Nat) (cb : PluginCallback) : DispatchResult :=
  dispatchWrapper ⟨"begin", first_lsn⟩
    { ctx with accept_writes := true, write_xid := xid,
               write_location := first_lsn } stack cb

/-- Embeds `commit_cb_wrapper`: reports at the transaction's final LSN, writes at its
end LSN. -/
def commit_cb_wrapper (ctx : OutputState) (stack : List ErrorContextFrame)
    (xid final_lsn end_lsn : Nat) (cb : PluginCallback) : DispatchResult :=
  dispatchWrapper ⟨"commit", final_lsn⟩
    { ctx with accept_writes := true, write_xid := xid,
               write_location := end_lsn } stack cb

/-- Embeds `change_cb_wrapper`: reports and writes at the change's LSN. -/
def change_cb_wrapper (ctx : OutputState) (stack : List ErrorContextFrame)
    (xid change_lsn : Nat) (cb : PluginCallback) : DispatchResult :=
  dispatchWrapper ⟨"change", change_lsn⟩
    { ctx with accept_writes := true, write_xid := xid,
               write_location := change_lsn } stack cb

/-- Embeds `filter_by_origin_cb_wrapper`: no write window, no associated LSN (the
boolean it forwards is irrelevant to the stack discipline). -/
def filter_by_origin_cb_wrapper (ctx : OutputState)
    (stack : List ErrorContextFrame) (cb : PluginCallback) : DispatchResult :=
  dispatchWrapper ⟨"filter_by_origin", 0⟩ { ctx with accept_writes := false }
    stack cb

/-- Which callbacks the plugin's `_PG_output_plugin_init` registered
(presence flags for the function pointers of `OutputPluginCallbacks`). -/
structure OutputPluginCallbacks where
  startup_cb : Bool
  shutdown_cb : Bool
  begin_cb : Bool
  change_cb : Bool
  commit_cb : Bool
  message_cb : Bool
  filter_by_origin_cb : Bool
deriving DecidableEq, Repr

/-- Embeds `message_cb_wrapper`: returns immediately when the plugin registered no
message callback; otherwise opens a write window at the message LSN, with
`write_xid` taken from the transaction when there is one
(`InvalidTransactionId` otherwise). -/
def message_cb_wrapper (cbs : OutputPluginCallbacks) (ctx : OutputState)
    (stack : List ErrorContextFrame) (txn_xid : Option Nat)
    (message_lsn : Nat) (cb : PluginCallback) : DispatchResult :=
  if cbs.message_cb = false then .ok (ctx, stack)
  else
    dispatchWrapper ⟨"message", message_lsn⟩
      { ctx with accept_writes := true, write_xid := txn_xid.getD 0,
                 write_location := message_lsn } stack cb

/-- Embeds `LoadOutputPlugin` after `plugin_init` filled the callback struct: a
missing begin, change, or commit callback is a fatal error; every other
callback is optional. -/
def LoadOutputPlugin (cb : OutputPluginCallbacks) : Except String Unit :=
  if cb.begin_cb = false then
    .error "output plugins have to register a begin callback"
  else if cb.change_cb = false then
    .error "output plugins have to register a change callback"
  else if cb.commit_cb = false then
    .error "output plugins have to register a commit callback"
  else .ok ()

/-- A freshly created slot at position 100 (Scenario A of the spec):
`catalog_xmin = effective_catalog_xmin = 40`, no pending candidates. -/
def slotScenarioA : ReplicationSlot :=
  { data := { database := 1, restart_lsn := 100, confirmed_flush := 100,
              catalog_xmin := 40 },
    effective_catalog_xmin := 40, candidate_catalog_xmin := 0,
    candidate_xmin_lsn := 0, candidate_restart_valid := 0,
    candidate_restart_lsn := 0 }

attribute [ext] ReplicationSlotPersistentData ReplicationSlot

section ConfirmFieldLemmas

variable (s : ReplicationSlot) (lsn : Nat)

theorem confirm_confirmed_flush :
    (LogicalConfirmReceivedLocation s lsn).data.confirmed_flush = lsn := by
  simp only [LogicalConfirmReceivedLocation]
  split_ifs <;> simp_all

theorem confirm_catalog_xmin :
    (LogicalConfirmReceivedLocation s lsn).data.catalog_xmin =
      if xminAdopt s lsn then s.candidate_catalog_xmin
      else s.data.catalog_xmin := by
  simp only [LogicalConfirmReceivedLocation, xminAdopt]
  split_ifs <;> simp_all

theorem confirm_effective_catalog_xmin :
    (LogicalConfirmReceivedLocation s lsn).effective_catalog_xmin =
      if xminAdopt s lsn then s.candidate_catalog_xmin
      else s.effective_catalog_xmin := by
  simp only [LogicalConfirmReceivedLocation, xminAdopt]
  split_ifs <;> simp_all

theorem confirm_candidate_catalog_xmin :
    (LogicalConfirmReceivedLocation s lsn).candidate_catalog_xmin =
      if xminAdopt s lsn then 0 else s.candidate_catalog_xmin := by
  simp only [LogicalConfirmReceivedLocation, xminAdopt]
  split_ifs <;> simp_all

theorem confirm_candidate_xmin_lsn :
    (LogicalConfirmReceivedLocation s lsn).candidate_xmin_lsn =
      if xminAdopt s lsn then 0 else s.candidate_xmin_lsn := by
  simp only [LogicalConfirmReceivedLocation, xminAdopt]
  split_ifs <;> simp_all

theorem confirm_restart_lsn :
    (LogicalConfirmReceivedLocation s lsn).data.restart_lsn =
      if restartAdopt s lsn then s.candidate_restart_lsn
      else s.data.restart_lsn := by
  simp only [LogicalConfirmReceivedLocation, restartAdopt]
  split_ifs <;> simp_all

theorem confirm_candidate_restart_valid :
    (LogicalConfirmReceivedLocation s lsn).candidate_restart_valid =
      if restartAdopt s lsn then 0 else s.candidate_restart_valid := by
  simp only [LogicalConfirmReceivedLocation, restartAdopt]
  split_ifs <;> simp_all

theorem confirm_candidate_restart_lsn :
    (LogicalConfirmReceivedLocation s lsn).candidate_restart_lsn =
      if restartAdopt s lsn then 0 else s.candidate_restart_lsn := by
  simp only [LogicalConfirmReceivedLocation, restartAdopt]
  split_ifs <;> simp_all

theorem confirm_database :
    (LogicalConfirmReceivedLocation s lsn).data.database = s.data.database := by
  simp only [LogicalConfirmReceivedLocation]
  split_ifs <;> simp_all

end ConfirmFieldLemmas

theorem confirm_eq (s : ReplicationSlot) (lsn : Nat) :
    LogicalConfirmReceivedLocation s lsn =
      { data := { database := s.data.database,
                  restart_lsn := if restartAdopt s lsn then
                      s.candidate_restart_lsn else s.data.restart_lsn,
                  confirmed_flush := lsn,
                  catalog_xmin := if xminAdopt s lsn then
                      s.candidate_catalog_xmin else s.data.catalog_xmin },
        effective_catalog_xmin := if xminAdopt s lsn then
            s.candidate_catalog_xmin else s.effective_catalog_xmin,
        candidate_catalog_xmin := if xminAdopt s lsn then 0
            else s.candidate_catalog_xmin,
        candidate_xmin_lsn := if xminAdopt s lsn then 0
            else s.candidate_xmin_lsn,
        candidate_restart_valid := if restartAdopt s lsn then 0
            else s.candidate_restart_valid,
        candidate_restart_lsn := if restartAdopt s lsn then 0
            else s.candidate_restart_lsn } := by
  simp only [LogicalConfirmReceivedLocation, xminAdopt, restartAdopt]
  split_ifs <;> simp_all

/-- Scenario A of the spec, as a sanity check of the embedding: a fresh slot
at position 100 proposes catalog xmin 50 with trigger 150; acknowledging 120
adopts nothing, acknowledging 150 makes 50 the enforced value. -/
example :
    (LogicalConfirmReceivedLocation
        (LogicalIncreaseXminForSlot slotScenarioA 150 50) 120).effective_catalog_xmin
        = 40 ∧
    (LogicalConfirmReceivedLocation
        (LogicalConfirmReceivedLocation
          (LogicalIncreaseXminForSlot slotScenarioA 150 50) 120)
        150).effective_catalog_xmin = 50 := by
  decide

/-- C4 (failing input): with `restart_lsn = 5`, no pending candidate and
`confirmed_flush = 2`, proposing the non-advancing `restart_lsn = 3` at
`current_lsn = 7` is claimed to leave all slot fields unchanged, but the plain
`if` in the third branch of `LogicalIncreaseRestartDecodingForSlot` records
`(7, 3)` into the candidate fields anyway; once the consumer confirms lsn 7,
`restart_lsn` moves backwards from 5 to 3, contradicting the function's
stated purpose (and the `else if` structure of its xmin twin). -/
theorem restart_noop_records_candidate_bug :
    slotRestartFive.candidate_restart_valid = 0 ∧
    slotRestartFive.data.restart_lsn = 5 ∧
    (LogicalIncreaseRestartDecodingForSlot slotRestartFive 7 3).candidate_restart_valid
      = 7 ∧
    (LogicalIncreaseRestartDecodingForSlot slotRestartFive 7 3).candidate_restart_lsn
      = 3 ∧
    (LogicalConfirmReceivedLocation
        (LogicalIncreaseRestartDecodingForSlot slotRestartFive 7 3) 7).data.restart_lsn
      = 3 := by
  decide

/-- C5 (counterexample): with a pending candidate `(value 15, trigger 100)` on
the xmin track and `confirmed_flush = 50`, a new proposal whose trigger 40 is
already confirmed overwrites the pending candidate (second branch of
`LogicalIncreaseXminForSlot`) and is immediately adopted: afterwards the
pending value 15 and trigger 100 are gone and `catalog_xmin = 20`. -/
theorem pending_candidate_overwrite_cex :
    slotPendingXmin.candidate_catalog_xmin = 15 ∧
    slotPendingXmin.candidate_xmin_lsn = 100 ∧
    (LogicalIncreaseXminForSlot slotPendingXmin 40 20).candidate_catalog_xmin
      ≠ 15 ∧
    (LogicalIncreaseXminForSlot slotPendingXmin 40 20).candidate_xmin_lsn
      ≠ 100 ∧
    (LogicalIncreaseXminForSlot slotPendingXmin 40 20).data.catalog_xmin = 20 := by
  decide

/-- C5 (amended): a proposal made while a candidate is pending on the same
track leaves the slot entirely unchanged, provided the new proposal's trigger
position has not itself been confirmed yet (`confirmed_flush < current_lsn`);
only a proposal whose trigger is already confirmed may replace a pending
candidate (and is then immediately adopted). -/
theorem pending_candidate_not_overwritten (s : ReplicationSlot)
    (cur v : Nat) (hcur : s.data.confirmed_flush < cur) :
    (s.candidate_xmin_lsn ≠ 0 → LogicalIncreaseXminForSlot s cur v = s) ∧
    (s.candidate_restart_valid ≠ 0 →
      LogicalIncreaseRestartDecodingForSlot s cur v = s) := by
  constructor
  · intro hx
    simp only [LogicalIncreaseXminForSlot]
    split_ifs <;> first | rfl | omega
  · intro hr
    simp only [LogicalIncreaseRestartDecodingForSlot]
    split_ifs <;> first | rfl | omega

/-- C5 (witness): concrete application of
`pending_candidate_not_overwritten` with candidates pending on both tracks. -/
theorem pending_candidate_not_overwritten_witness :
    LogicalIncreaseXminForSlot slotPendingBoth 60 20 = slotPendingBoth ∧
    LogicalIncreaseRestartDecodingForSlot slotPendingBoth 60 20
      = slotPendingBoth :=
  ⟨(pending_candidate_not_overwritten slotPendingBoth 60 20 (by decide)).1
      (by decide),
   (pending_candidate_not_overwritten slotPendingBoth 60 20 (by decide)).2
      (by decide)⟩

/-- C6 (counterexample): `LogicalConfirmReceivedLocation` has no defensive
clamp; acknowledging position 5 on a slot whose `confirmed_flush` is 10
decreases `confirmed_flush` to 5 rather than leaving it unchanged. -/
theorem confirmed_flush_decrease_cex :
    (5 : Nat) < slotConfirmedTen.data.confirmed_flush ∧
    (LogicalConfirmReceivedLocation slotConfirmedTen 5).data.confirmed_flush
      = 5 := by
  decide

/-- C6 (amended): `LogicalConfirmReceivedLocation` assigns
`confirmed_flush := lsn` unconditionally, in every branch; a stale
acknowledgement below the current value therefore lowers `confirmed_flush` —
non-decrease relies on callers passing non-decreasing positions. -/
theorem confirmed_flush_set_unconditionally (s : ReplicationSlot) (lsn : Nat) :
    (LogicalConfirmReceivedLocation s lsn).data.confirmed_flush = lsn :=
  confirm_confirmed_flush s lsn

theorem confirm_xmin_track_frozen (s : ReplicationSlot) (l : Nat)
    (h : l < s.candidate_xmin_lsn) :
    (LogicalConfirmReceivedLocation s l).effective_catalog_xmin
        = s.effective_catalog_xmin ∧
    (LogicalConfirmReceivedLocation s l).data.catalog_xmin
        = s.data.catalog_xmin ∧
    (LogicalConfirmReceivedLocation s l).candidate_xmin_lsn
        = s.candidate_xmin_lsn ∧
    (LogicalConfirmReceivedLocation s l).candidate_catalog_xmin
        = s.candidate_catalog_xmin := by
  have hx : ¬ xminAdopt s l := by
    simp only [xminAdopt]
    omega
  refine ⟨?_, ?_, ?_, ?_⟩ <;>
    simp [confirm_effective_catalog_xmin, confirm_catalog_xmin,
      confirm_candidate_xmin_lsn, confirm_candidate_catalog_xmin, hx]

theorem confirm_restart_track_frozen (s : ReplicationSlot) (l : Nat)
    (h : l < s.candidate_restart_valid) :
    (LogicalConfirmReceivedLocation s l).data.restart_lsn
        = s.data.restart_lsn ∧
    (LogicalConfirmReceivedLocation s l).candidate_restart_valid
        = s.candidate_restart_valid ∧
    (LogicalConfirmReceivedLocation s l).candidate_restart_lsn
        = s.candidate_restart_lsn := by
  have hr : ¬ restartAdopt s l := by
    simp only [restartAdopt]
    omega
  refine ⟨?_, ?_, ?_⟩ <;>
    simp [confirm_restart_lsn, confirm_candidate_restart_valid,
      confirm_candidate_restart_lsn, hr]

/-- C1: no premature adoption.  For a pending candidate on either track, any
sequence of `LogicalConfirmReceivedLocation` calls whose positions all stay
below the candidate's trigger position leaves the enforced values
(`effective_catalog_xmin`, `catalog_xmin`, `restart_lsn`) and the pending
candidate itself unchanged: the candidate never becomes the enforced value
while `confirmed_flush` is below its trigger. -/
theorem no_premature_adoption (s : ReplicationSlot) (lsns : List Nat) :
    (s.candidate_xmin_lsn ≠ 0 →
      (∀ l ∈ lsns, l < s.candidate_xmin_lsn) →
      ((lsns.foldl LogicalConfirmReceivedLocation s).effective_catalog_xmin
          = s.effective_catalog_xmin ∧
       (lsns.foldl LogicalConfirmReceivedLocation s).data.catalog_xmin
          = s.data.catalog_xmin ∧
       (lsns.foldl LogicalConfirmReceivedLocation s).candidate_xmin_lsn
          = s.candidate_xmin_lsn ∧
       (lsns.foldl LogicalConfirmReceivedLocation s).candidate_catalog_xmin
          = s.candidate_catalog_xmin)) ∧
    (s.candidate_restart_valid ≠ 0 →
      (∀ l ∈ lsns, l < s.candidate_restart_valid) →
      ((lsns.foldl LogicalConfirmReceivedLocation s).data.restart_lsn
          = s.data.restart_lsn ∧
       (lsns.foldl LogicalConfirmReceivedLocation s).candidate_restart_valid
          = s.candidate_restart_valid ∧
       (lsns.foldl LogicalConfirmReceivedLocation s).candidate_restart_lsn
          = s.candidate_restart_lsn)) := by
  induction lsns generalizing s with
  | nil => simp
  | cons a as ih =>
    constructor
    · intro hpend hall
      have ha : a < s.candidate_xmin_lsn := hall a (List.mem_cons_self a as)
      obtain ⟨e1, e2, e3, e4⟩ := confirm_xmin_track_frozen s a ha
      rw [List.foldl_cons]
      have hpend' : (LogicalConfirmReceivedLocation s a).candidate_xmin_lsn
          ≠ 0 := by rw [e3]; exact hpend
      have hall' : ∀ l ∈ as,
          l < (LogicalConfirmReceivedLocation s a).candidate_xmin_lsn := by
        rw [e3]; exact fun l hl => hall l (List.mem_cons_of_mem a hl)
      obtain ⟨f1, f2, f3, f4⟩ :=
        (ih (LogicalConfirmReceivedLocation s a)).1 hpend' hall'
      exact ⟨f1.trans e1, f2.trans e2, f3.trans e3, f4.trans e4⟩
    · intro hpend hall
      have ha : a < s.candidate_restart_valid := hall a (List.mem_cons_self a as)
      obtain ⟨e1, e2, e3⟩ := confirm_restart_track_frozen s a ha
      rw [List.foldl_cons]
      have hpend' : (LogicalConfirmReceivedLocation s a).candidate_restart_valid
          ≠ 0 := by rw [e2]; exact hpend
      have hall' : ∀ l ∈ as,
          l < (LogicalConfirmReceivedLocation s a).candidate_restart_valid := by
        rw [e2]; exact fun l hl => hall l (List.mem_cons_of_mem a hl)
      obtain ⟨f1, f2, f3⟩ :=
        (ih (LogicalConfirmReceivedLocation s a)).2 hpend' hall'
      exact ⟨f1.trans e1, f2.trans e2, f3.trans e3⟩

/-- C1 (witness): with candidates pending at triggers 100 (xmin) and 90
(restart), acknowledging 60 then 70 adopts nothing on either track. -/
theorem no_premature_adoption_witness :
    (([60, 70].foldl LogicalConfirmReceivedLocation
        slotPendingBoth).effective_catalog_xmin
      = slotPendingBoth.effective_catalog_xmin) ∧
    (([60, 70].foldl LogicalConfirmReceivedLocation
        slotPendingBoth).data.restart_lsn
      = slotPendingBoth.data.restart_lsn) :=
  ⟨((no_premature_adoption slotPendingBoth [60, 70]).1 (by decide)
      (by decide)).1,
   ((no_premature_adoption slotPendingBoth [60, 70]).2 (by decide)
      (by decide)).1⟩

/-- C7: acknowledging the same position twice in succession yields exactly the
same slot state as acknowledging it once —
`LogicalConfirmReceivedLocation` is idempotent. -/
theorem confirm_idempotent (s : ReplicationSlot) (lsn : Nat) :
    LogicalConfirmReceivedLocation (LogicalConfirmReceivedLocation s lsn) lsn =
      LogicalConfirmReceivedLocation s lsn := by
  have hx' : ¬ xminAdopt (LogicalConfirmReceivedLocation s lsn) lsn := by
    rw [confirm_eq s lsn]
    by_cases hx : xminAdopt s lsn
    · simp only [hx, if_true]
      simp [xminAdopt]
    · simp only [hx, if_false]
      exact hx
  have hr' : ¬ restartAdopt (LogicalConfirmReceivedLocation s lsn) lsn := by
    rw [confirm_eq s lsn]
    by_cases hr : restartAdopt s lsn
    · simp only [hr, if_true]
      simp [restartAdopt]
    · simp only [hr, if_false]
      exact hr
  rw [confirm_eq (LogicalConfirmReceivedLocation s lsn) lsn]
  ext <;> simp [hx', hr', confirm_confirmed_flush]

/-- C8: resume start-position resolution.  For a logical slot of the current
database whose required catalogs are still retained, `CreateDecodingContext`
resolves the invalid sentinel to the slot's `confirmed_flush`, silently clamps
a start position below `confirmed_flush` forward to `confirmed_flush`, and
uses a start position at or above `confirmed_flush` as given — in all three
cases without raising an error. -/
theorem decoding_start_position_resolution (s : ReplicationSlot)
    (db oldest start : Nat) (hlogical : s.data.database ≠ 0)
    (hdb : s.data.database = db) (hvalid : oldest ≠ 0)
    (hretained : TransactionIdFollows oldest s.data.catalog_xmin = false) :
    (start = 0 →
      CreateDecodingContext s db oldest start
        = Except.ok s.data.confirmed_flush) ∧
    (start ≠ 0 → start < s.data.confirmed_flush →
      CreateDecodingContext s db oldest start
        = Except.ok s.data.confirmed_flush) ∧
    (start ≠ 0 → s.data.confirmed_flush ≤ start →
      CreateDecodingContext s db oldest start = Except.ok start) := by
  unfold CreateDecodingContext EnsureActiveLogicalSlotValid SlotIsPhysical
    TransactionIdIsValid
  refine ⟨?_, ?_, ?_⟩ <;> intros <;> split_ifs <;>
    first
    | (simp_all; done)
    | (simp_all
       omega)

/-- C8 (witness): a fresh logical slot with `confirmed_flush = 100` and a
retained `oldestCatalogXmin` resolves start positions 0, 60 and 150 to 100,
100 and 150 respectively, with no error. -/
theorem decoding_start_position_resolution_witness :
    CreateDecodingContext slotScenarioA 1 40 0 = Except.ok 100 ∧
    CreateDecodingContext slotScenarioA 1 40 60 = Except.ok 100 ∧
    CreateDecodingContext slotScenarioA 1 40 150 = Except.ok 150 :=
  ⟨(decoding_start_position_resolution slotScenarioA 1 40 0 (by decide)
      (by decide) (by decide) (by decide)).1 (by decide),
   (decoding_start_position_resolution slotScenarioA 1 40 60 (by decide)
      (by decide) (by decide) (by decide)).2.1 (by decide) (by decide),
   (decoding_start_position_resolution slotScenarioA 1 40 150 (by decide)
      (by decide) (by decide) (by decide)).2.2 (by decide) (by decide)⟩

/-- C9 (counterexample): the claim that the dispatcher pops its error-context
frame even when the callback raises is false — when the callback of
`begin_cb_wrapper` raises, control unwinds with the frame still on the
error-context stack (the stack is restored by the outer error machinery, not
by the wrapper, whose pop statement is never reached). -/
theorem error_context_frame_left_on_error_cex :
    begin_cb_wrapper ⟨false, 0, 0⟩ [] 7 5 (fun _ _ => Except.error 1)
      = Except.error (1, ⟨true, 7, 5⟩, [⟨"begin", 5⟩]) ∧
    ([⟨"begin", 5⟩] : List ErrorContextFrame) ≠ [] := by
  constructor
  · rfl
  · simp

/-- C9 (amended): every callback wrapper pushes its error-context frame,
invokes the callback with the frame pushed, and pops the frame before
returning on every normal (non-error) return of the callback; when the
callback raises, the wrapper performs no pop and the frame is left on the
stack for the outer error machinery. -/
theorem error_context_popped_on_normal_return (ctx : OutputState)
    (stack : List ErrorContextFrame) (cb : PluginCallback)
    (cbs : OutputPluginCallbacks)
    (xid first_lsn final_lsn end_lsn change_lsn message_lsn : Nat)
    (txn_xid : Option Nat) :
    (cb { ctx with accept_writes := false } (⟨"startup", 0⟩ :: stack)
        = Except.ok () →
      startup_cb_wrapper ctx stack cb
        = Except.ok ({ ctx with accept_writes := false }, stack)) ∧
    (cb { ctx with accept_writes := false } (⟨"shutdown", 0⟩ :: stack)
        = Except.ok () →
      shutdown_cb_wrapper ctx stack cb
        = Except.ok ({ ctx with accept_writes := false }, stack)) ∧
    (cb { ctx with accept_writes := true, write_xid := xid,
                   write_location := first_lsn } (⟨"begin", first_lsn⟩ :: stack)
        = Except.ok () →
      begin_cb_wrapper ctx stack xid first_lsn cb
        = Except.ok ({ ctx with accept_writes := true, write_xid := xid,
                                write_location := first_lsn }, stack)) ∧
    (cb { ctx with accept_writes := true, write_xid := xid,
                   write_location := end_lsn } (⟨"commit", final_lsn⟩ :: stack)
        = Except.ok () →
      commit_cb_wrapper ctx stack xid final_lsn end_lsn cb
        = Except.ok ({ ctx with accept_writes := true, write_xid := xid,
                                write_location := end_lsn }, stack)) ∧
    (cb { ctx with accept_writes := true, write_xid := xid,
                   write_location := change_lsn } (⟨"change", change_lsn⟩ :: stack)
        = Except.ok () →
      change_cb_wrapper ctx stack xid change_lsn cb
        = Except.ok ({ ctx with accept_writes := true, write_xid := xid,
                                write_location := change_lsn }, stack)) ∧
    (cb { ctx with accept_writes := false }
        (⟨"filter_by_origin", 0⟩ :: stack) = Except.ok () →
      filter_by_origin_cb_wrapper ctx stack cb
        = Except.ok ({ ctx with accept_writes := false }, stack)) ∧
    (cbs.message_cb = true →
      cb { ctx with accept_writes := true, write_xid := txn_xid.getD 0,
                    write_location := message_lsn } (⟨"message", message_lsn⟩ :: stack)
        = Except.ok () →
      message_cb_wrapper cbs ctx stack txn_xid message_lsn cb
        = Except.ok ({ ctx with accept_writes := true,
                                write_xid := txn_xid.getD 0,
                                write_location := message_lsn },
            stack)) := by
  refine ⟨?_, ?_, ?_, ?_, ?_, ?_, ?_⟩ <;> intros h1 <;>
    first
    | simp_all [startup_cb_wrapper, shutdown_cb_wrapper, begin_cb_wrapper,
        commit_cb_wrapper, change_cb_wrapper, filter_by_origin_cb_wrapper,
        dispatchWrapper]
    | (intro h2
       simp_all [message_cb_wrapper, dispatchWrapper])

/-- C9 (witness): concrete application of
`error_context_popped_on_normal_return` with a callback that returns
normally: every wrapper restores the original (empty) stack. -/
theorem error_context_popped_on_normal_return_witness :
    startup_cb_wrapper ⟨false, 0, 0⟩ [] (fun _ _ => Except.ok ())
      = Except.ok (⟨false, 0, 0⟩, []) ∧
    message_cb_wrapper ⟨true, true, true, true, true, true, true⟩
      ⟨false, 0, 0⟩ [] (some 7) 5 (fun _ _ => Except.ok ())
      = Except.ok (⟨true, 7, 5⟩, []) :=
  ⟨(error_context_popped_on_normal_return ⟨false, 0, 0⟩ []
      (fun _ _ => Except.ok ()) ⟨true, true, true, true, true, true, true⟩
      7 5 5 5 5 5 (some 7)).1 (by rfl),
   ((error_context_popped_on_normal_return ⟨false, 0, 0⟩ []
      (fun _ _ => Except.ok ()) ⟨true, true, true, true, true, true, true⟩
      7 5 5 5 5 5 (some 7)).2.2.2.2.2.2 (by rfl) (by rfl))⟩

theorem txPoe_refl (a : Nat) : TransactionIdPrecedesOrEquals a a = true := by
  unfold TransactionIdPrecedesOrEquals
  split_ifs <;> simp

theorem txPoe_total {a b : Nat} (ha : a < xidModulus) (hb : b < xidModulus)
    (h : TransactionIdPrecedesOrEquals a b = false) :
    TransactionIdPrecedesOrEquals b a = true := by
  unfold TransactionIdPrecedesOrEquals TransactionIdIsNormal
    FirstNormalTransactionId at h ⊢
  unfold xidModulus xidHalfModulus at *
  by_cases hn : ¬decide (3 ≤ a) = true ∨ ¬decide (3 ≤ b) = true
  · rw [if_pos hn] at h
    rw [if_pos hn.symm]
    simp only [decide_eq_false_iff_not, not_le, decide_eq_true_eq] at h ⊢
    omega
  · rw [if_neg hn] at h
    rw [if_neg (fun hc => hn hc.symm)]
    simp only [decide_eq_false_iff_not, decide_eq_true_eq] at h ⊢
    push_neg at h
    omega

theorem wf_confirm (s : ReplicationSlot) (lsn : Nat)
    (hwf : WellFormedSlot s) :
    WellFormedSlot (LogicalConfirmReceivedLocation s lsn) := by
  obtain ⟨h1, h2, h3, h4⟩ := hwf
  rw [confirm_eq]
  by_cases hx : xminAdopt s lsn
  · exact ⟨by simp [hx, h2], by simp [hx]; decide, by simp [hx], by simp [hx]⟩
  · refine ⟨by simp [hx, h1], by simp [hx, h2], by simp [hx, h3], ?_⟩
    intro hp
    simp only [hx, if_false] at hp ⊢
    exact h4 hp

theorem eff_mono_confirm (s : ReplicationSlot) (lsn : Nat)
    (hwf : WellFormedSlot s) :
    TransactionIdPrecedesOrEquals s.effective_catalog_xmin
      (LogicalConfirmReceivedLocation s lsn).effective_catalog_xmin = true := by
  obtain ⟨h1, h2, h3, h4⟩ := hwf
  rw [confirm_effective_catalog_xmin]
  by_cases hx : xminAdopt s lsn
  · rw [if_pos hx, h3]
    exact txPoe_total h2 h1 (h4 hx.1)
  · rw [if_neg hx]
    exact txPoe_refl _

theorem eff_mono_confirm_agree (s t : ReplicationSlot) (lsn : Nat)
    (heq : t.effective_catalog_xmin = s.effective_catalog_xmin)
    (hwf : WellFormedSlot t) :
    TransactionIdPrecedesOrEquals s.effective_catalog_xmin
      (LogicalConfirmReceivedLocation t lsn).effective_catalog_xmin = true := by
  rw [← heq]
  exact eff_mono_confirm t lsn hwf

theorem wf_proposeXmin (s : ReplicationSlot) (cur x : Nat)
    (hwf : WellFormedSlot s) (hx : x < xidModulus) :
    WellFormedSlot (LogicalIncreaseXminForSlot s cur x) := by
  obtain ⟨h1, h2, h3, h4⟩ := hwf
  unfold LogicalIncreaseXminForSlot
  split_ifs with hb1 hb2 hb3
  · exact ⟨h1, h2, h3, h4⟩
  · apply wf_confirm
    exact ⟨h1, hx, h3, fun _ => by simpa using hb1⟩
  · exact ⟨h1, hx, h3, fun _ => by simpa using hb1⟩
  · exact ⟨h1, h2, h3, h4⟩

theorem eff_mono_proposeXmin (s : ReplicationSlot) (cur x : Nat)
    (hwf : WellFormedSlot s) (hx : x < xidModulus) :
    TransactionIdPrecedesOrEquals s.effective_catalog_xmin
      (LogicalIncreaseXminForSlot s cur x).effective_catalog_xmin = true := by
  obtain ⟨h1, h2, h3, h4⟩ := hwf
  unfold LogicalIncreaseXminForSlot
  split_ifs with hb1 hb2 hb3
  · exact txPoe_refl _
  · exact eff_mono_confirm_agree s _ _ rfl
      ⟨h1, hx, h3, fun _ => by simpa using hb1⟩
  · exact txPoe_refl _
  · exact txPoe_refl _

theorem wf_proposeRestart (s : ReplicationSlot) (cur r : Nat)
    (hwf : WellFormedSlot s) :
    WellFormedSlot (LogicalIncreaseRestartDecodingForSlot s cur r) := by
  obtain ⟨h1, h2, h3, h4⟩ := hwf
  simp only [LogicalIncreaseRestartDecodingForSlot]
  split_ifs <;>
    first
    | exact ⟨h1, h2, h3, h4⟩
    | (apply wf_confirm; exact ⟨h1, h2, h3, h4⟩)

theorem eff_mono_proposeRestart (s : ReplicationSlot) (cur r : Nat)
    (hwf : WellFormedSlot s) :
    TransactionIdPrecedesOrEquals s.effective_catalog_xmin
      (LogicalIncreaseRestartDecodingForSlot s cur r).effective_catalog_xmin
      = true := by
  obtain ⟨h1, h2, h3, h4⟩ := hwf
  simp only [LogicalIncreaseRestartDecodingForSlot]
  split_ifs <;>
    first
    | exact txPoe_refl _
    | exact eff_mono_confirm_agree s _ _ rfl ⟨h1, h2, h3, h4⟩

theorem wf_applyOp (s : ReplicationSlot) (op : SlotOp)
    (hwf : WellFormedSlot s) (hop : OpWF op) :
    WellFormedSlot (applyOp s op) := by
  cases op with
  | confirm lsn => exact wf_confirm s lsn hwf
  | proposeXmin cur x => exact wf_proposeXmin s cur x hwf hop
  | proposeRestart cur r => exact wf_proposeRestart s cur r hwf

theorem eff_mono_applyOp (s : ReplicationSlot) (op : SlotOp)
    (hwf : WellFormedSlot s) (hop : OpWF op) :
    TransactionIdPrecedesOrEquals s.effective_catalog_xmin
      (applyOp s op).effective_catalog_xmin = true := by
  cases op with
  | confirm lsn => exact eff_mono_confirm s lsn hwf
  | proposeXmin cur x => exact eff_mono_proposeXmin s cur x hwf hop
  | proposeRestart cur r => exact eff_mono_proposeRestart s cur r hwf

theorem confirmed_proposeXmin (s : ReplicationSlot) (cur x : Nat) :
    (LogicalIncreaseXminForSlot s cur x).data.confirmed_flush
      = s.data.confirmed_flush := by
  unfold LogicalIncreaseXminForSlot
  split_ifs <;> simp [confirm_confirmed_flush]

theorem confirmed_proposeRestart (s : ReplicationSlot) (cur r : Nat) :
    (LogicalIncreaseRestartDecodingForSlot s cur r).data.confirmed_flush
      = s.data.confirmed_flush := by
  simp only [LogicalIncreaseRestartDecodingForSlot]
  split_ifs <;> simp [confirm_confirmed_flush]

/-- C3: monotonicity.  Starting from a reachable (well-formed) slot state, for
every sequence of protocol calls whose confirmation positions are
non-decreasing (continuing on from the slot's current `confirmed_flush`),
interleaved arbitrarily with xmin/restart proposals, the `confirmed_flush`
observed after each call is non-decreasing, and `effective_catalog_xmin` is
non-decreasing in the modular TransactionId order. -/
theorem acknowledge_monotonic (s : ReplicationSlot) (ops : List SlotOp)
    (hwf : WellFormedSlot s) (hops : ∀ op ∈ ops, OpWF op)
    (hpos : List.Chain' (· ≤ ·)
      (s.data.confirmed_flush :: confirmPositions ops)) :
    List.Chain' (· ≤ ·)
      ((s :: slotStates s ops).map fun t => t.data.confirmed_flush) ∧
    List.Chain' (fun a b => TransactionIdPrecedesOrEquals a b = true)
      ((s :: slotStates s ops).map fun t => t.effective_catalog_xmin) := by
  induction ops generalizing s with
  | nil => simp [slotStates]
  | cons op rest ih =>
    have hop : OpWF op := hops op (List.mem_cons_self _ _)
    have hops' : ∀ o ∈ rest, OpWF o :=
      fun o ho => hops o (List.mem_cons_of_mem _ ho)
    have hwf' : WellFormedSlot (applyOp s op) := wf_applyOp s op hwf hop
    have heff := eff_mono_applyOp s op hwf hop
    cases op with
    | confirm lsn =>
      simp only [confirmPositions] at hpos
      rw [List.chain'_cons] at hpos
      obtain ⟨hle, hpos'⟩ := hpos
      have hc : (applyOp s (SlotOp.confirm lsn)).data.confirmed_flush = lsn :=
        confirm_confirmed_flush s lsn
      have ihr := ih (applyOp s (SlotOp.confirm lsn)) hwf' hops'
        (by rw [hc]; exact hpos')
      simp only [slotStates, List.map_cons, List.chain'_cons] at ihr ⊢
      exact ⟨⟨by simp [hc, hle], ihr.1⟩, heff, ihr.2⟩
    | proposeXmin cur x =>
      simp only [confirmPositions] at hpos
      have hc := confirmed_proposeXmin s cur x
      have ihr := ih (applyOp s (SlotOp.proposeXmin cur x)) hwf' hops'
        (by simpa [applyOp, hc] using hpos)
      simp only [slotStates, List.map_cons, List.chain'_cons] at ihr ⊢
      exact ⟨⟨by simp [applyOp, hc], ihr.1⟩, heff, ihr.2⟩
    | proposeRestart cur r =>
      simp only [confirmPositions] at hpos
      have hc := confirmed_proposeRestart s cur r
      have ihr := ih (applyOp s (SlotOp.proposeRestart cur r)) hwf' hops'
        (by simpa [applyOp, hc] using hpos)
      simp only [slotStates, List.map_cons, List.chain'_cons] at ihr ⊢
      exact ⟨⟨by simp [applyOp, hc], ihr.1⟩, heff, ihr.2⟩

/-- C3 (witness): Scenario A's call sequence on a fresh slot keeps both
`confirmed_flush` and `effective_catalog_xmin` non-decreasing. -/
theorem acknowledge_monotonic_witness :
    List.Chain' (· ≤ ·)
      ((slotScenarioA :: slotStates slotScenarioA opsScenarioA).map
        fun t => t.data.confirmed_flush) ∧
    List.Chain' (fun a b => TransactionIdPrecedesOrEquals a b = true)
      ((slotScenarioA :: slotStates slotScenarioA opsScenarioA).map
        fun t => t.effective_catalog_xmin) :=
  acknowledge_monotonic slotScenarioA opsScenarioA (by decide) (by decide)
    (by norm_num [slotScenarioA, opsScenarioA, confirmPositions,
      List.chain'_cons])

/-- C10: a decoding context whose plugin registered no message callback
dispatches message events as a silent no-op — `message_cb_wrapper` returns
immediately with the write state and error-context stack untouched and no
error — whereas `LoadOutputPlugin` succeeds exactly when the begin, change and
commit callbacks are all present (their absence is a fatal load error, the
message callback's absence is not). -/
theorem absent_message_callback_noop (cbs : OutputPluginCallbacks)
    (ctx : OutputState) (stack : List ErrorContextFrame)
    (txn_xid : Option Nat) (message_lsn : Nat) (cb : PluginCallback)
    (h : cbs.message_cb = false) :
    message_cb_wrapper cbs ctx stack txn_xid message_lsn cb
      = Except.ok (ctx, stack) ∧
    (LoadOutputPlugin cbs = Except.ok () ↔
      (cbs.begin_cb = true ∧ cbs.change_cb = true ∧ cbs.commit_cb = true)) := by
  constructor
  · simp [message_cb_wrapper, h]
  · unfold LoadOutputPlugin
    split_ifs <;> simp_all

/-- C10 (witness): a plugin with begin/change/commit but no message callback
loads successfully, and its message dispatch is the identity on context and
stack. -/
theorem absent_message_callback_noop_witness :
    message_cb_wrapper ⟨true, true, true, true, true, false, false⟩
      ⟨false, 0, 0⟩ [] (some 7) 5 (fun _ _ => Except.error 1)
      = Except.ok (⟨false, 0, 0⟩, []) ∧
    (LoadOutputPlugin ⟨true, true, true, true, true, false, false⟩
        = Except.ok () ↔ (true = true ∧ true = true ∧ true = true)) :=
  absent_message_callback_noop ⟨true, true, true, true, true, false, false⟩
    ⟨false, 0, 0⟩ [] (some 7) 5 (fun _ _ => Except.error 1) (by rfl)

theorem confirmSteps_final_mem (st : MState) (lsn : Nat) :
    (finalState (confirmSteps st lsn) st).mem
      = LogicalConfirmReceivedLocation st.mem lsn := by
  by_cases hpre : st.mem.candidate_xmin_lsn ≠ 0 ∨
      st.mem.candidate_restart_valid ≠ 0
  · by_cases hx : st.mem.candidate_xmin_lsn ≠ 0 ∧
        st.mem.candidate_xmin_lsn ≤ lsn ∧ st.mem.candidate_catalog_xmin ≠ 0 ∧
        st.mem.data.catalog_xmin ≠ st.mem.candidate_catalog_xmin
    · by_cases hur : st.mem.candidate_restart_valid ≠ 0 ∧
          st.mem.candidate_restart_valid ≤ lsn
      · simp only [confirmSteps, LogicalConfirmReceivedLocation]
        simp only [if_pos hpre, if_pos hx, if_pos hur, if_pos (Or.inl hx)]
        simp [finalState]
      · simp only [confirmSteps, LogicalConfirmReceivedLocation]
        simp only [if_pos hpre, if_pos hx, if_neg hur, if_pos (Or.inl hx)]
        simp [finalState]
    · by_cases hur : st.mem.candidate_restart_valid ≠ 0 ∧
          st.mem.candidate_restart_valid ≤ lsn
      · simp only [confirmSteps, LogicalConfirmReceivedLocation]
        simp only [if_pos hpre, if_neg hx, if_pos hur, if_pos (Or.inr hur)]
        simp [finalState]
      · have hnor : ¬((st.mem.candidate_xmin_lsn ≠ 0 ∧
            st.mem.candidate_xmin_lsn ≤ lsn ∧
            st.mem.candidate_catalog_xmin ≠ 0 ∧
            st.mem.data.catalog_xmin ≠ st.mem.candidate_catalog_xmin) ∨
            (st.mem.candidate_restart_valid ≠ 0 ∧
              st.mem.candidate_restart_valid ≤ lsn)) :=
          fun hor => hor.elim hx hur
        simp only [confirmSteps, LogicalConfirmReceivedLocation]
        simp only [if_pos hpre, if_neg hx, if_neg hur, if_neg hnor]
        simp [finalState]
  · simp only [confirmSteps, LogicalConfirmReceivedLocation]
    simp only [if_neg hpre]
    simp [finalState]

/-- C2 (counterexample): at a concrete state whose xmin candidate is adopted,
the `setEffective` step of `LogicalConfirmReceivedLocation` (the
`effective_catalog_xmin` update) does not happen outside the slot's spinlock:
it runs at lock depth 1, under the briefly re-acquired spinlock. -/
theorem effective_update_inside_spinlock_cex :
    SlotEvent.setEffective ∈ (confirmSteps mstatePendingXmin 100).map Prod.fst ∧
    lockDepthBefore ((confirmSteps mstatePendingXmin 100).map Prod.fst)
      (((confirmSteps mstatePendingXmin 100).map Prod.fst).indexOf
        SlotEvent.setEffective) ≠ 0 := by
  decide

/-- C2 (amended): whenever `LogicalConfirmReceivedLocation` adopts a
catalog-xmin candidate, the trace of the call contains exactly one persist
(`ReplicationSlotMarkDirty` + `ReplicationSlotSave`) and exactly one
`effective_catalog_xmin` update, with the persist strictly before the update
(`[save, setEffective]` is a sublist of the trace, and each occurs once); the
persist runs outside the spinlock (lock depth 0) while the effective update
runs under a briefly re-acquired spinlock (lock depth 1); and a crash between
the persist and the effective update loses nothing: restoring the slot from
the state persisted at the save step reproduces exactly the effective value
the full run ends with. -/
theorem durability_before_enforcement (st : MState) (lsn : Nat)
    (h : xminAdopt st.mem lsn) :
    ((confirmSteps st lsn).map Prod.fst).count SlotEvent.save = 1 ∧
    ((confirmSteps st lsn).map Prod.fst).count SlotEvent.setEffective = 1 ∧
    [SlotEvent.save, SlotEvent.setEffective].Sublist
      ((confirmSteps st lsn).map Prod.fst) ∧
    lockDepthBefore ((confirmSteps st lsn).map Prod.fst)
      (((confirmSteps st lsn).map Prod.fst).indexOf SlotEvent.save) = 0 ∧
    lockDepthBefore ((confirmSteps st lsn).map Prod.fst)
      (((confirmSteps st lsn).map Prod.fst).indexOf SlotEvent.setEffective)
      = 1 ∧
    (∃ st', stateAfterEvent (confirmSteps st lsn) SlotEvent.save = some st' ∧
        (restoreSlotFromDisk st'.disk).effective_catalog_xmin
          = (finalState (confirmSteps st lsn) st).mem.effective_catalog_xmin) := by
  obtain ⟨hp1, hp2, hp3, hp4⟩ := h
  have hpre : st.mem.candidate_xmin_lsn ≠ 0 ∨
      st.mem.candidate_restart_valid ≠ 0 := Or.inl hp1
  have hx : st.mem.candidate_xmin_lsn ≠ 0 ∧ st.mem.candidate_xmin_lsn ≤ lsn ∧
      st.mem.candidate_catalog_xmin ≠ 0 ∧
      st.mem.data.catalog_xmin ≠ st.mem.candidate_catalog_xmin :=
    ⟨hp1, hp2, hp3, hp4⟩
  simp only [confirmSteps]
  simp only [if_pos hpre, if_pos hx]
  by_cases hur : st.mem.candidate_restart_valid ≠ 0 ∧
      st.mem.candidate_restart_valid ≤ lsn
  · simp only [if_pos hur, if_pos (Or.inl hx)]
    simp only [List.map_append, List.map_cons, List.map_nil,
      List.cons_append, List.nil_append]
    exact ⟨by decide, by decide, by decide, by decide, by decide, _, rfl, rfl⟩
  · simp only [if_neg hur, if_pos (Or.inl hx)]
    simp only [List.map_append, List.map_cons, List.map_nil,
      List.cons_append, List.nil_append]
    exact ⟨by decide, by decide, by decide, by decide, by decide, _, rfl, rfl⟩

/-- C2 (witness): concrete application of `durability_before_enforcement` at
the state with pending candidate `(15, trigger 100)` and confirmation 100. -/
theorem durability_before_enforcement_witness :
    ((confirmSteps mstatePendingXmin 100).map Prod.fst).count SlotEvent.save
      = 1 ∧
    ((confirmSteps mstatePendingXmin 100).map Prod.fst).count
      SlotEvent.setEffective = 1 ∧
    [SlotEvent.save, SlotEvent.setEffective].Sublist
      ((confirmSteps mstatePendingXmin 100).map Prod.fst) ∧
    lockDepthBefore ((confirmSteps mstatePendingXmin 100).map Prod.fst)
      (((confirmSteps mstatePendingXmin 100).map Prod.fst).indexOf
        SlotEvent.save) = 0 ∧
    lockDepthBefore ((confirmSteps mstatePendingXmin 100).map Prod.fst)
      (((confirmSteps mstatePendingXmin 100).map Prod.fst).indexOf
        SlotEvent.setEffective) = 1 ∧
    (∃ st', stateAfterEvent (confirmSteps mstatePendingXmin 100)
          SlotEvent.save = some st' ∧
        (restoreSlotFromDisk st'.disk).effective_catalog_xmin
          = (finalState (confirmSteps mstatePendingXmin 100)
              mstatePendingXmin).mem.effective_catalog_xmin) :=
  durability_before_enforcement mstatePendingXmin 100 (by decide)

end PGLogical
